import Mathlib

/-
Verification development for the mdialer-api backend (src/main.py).

The Python source is shallowly embedded below.  String manipulation is
modelled character-wise (structural recursion over `List Char`) so that
every definition evaluates inside the kernel; timestamps are natural
numbers and the byte stream of the AMI socket is modelled as an explicit
list of read events.
-/

set_option maxRecDepth 100000

namespace MDialer

/-! ## Character-level string helpers

These model the Python primitives used by `main.py` (`in`, `str.split`,
`str.strip`, `str.lower`, `str.startswith`, `re.sub`, `re.findall`)
as structurally recursive functions on `List Char`. -/

/-- Does `needle` occur at the very front of `hay`?  (Models
`str.startswith` when applied to the full string.) -/
def leadMatch : List Char → List Char → Bool
  | [], _ => true
  | _ :: _, [] => false
  | a :: as, b :: bs => a == b && leadMatch as bs

/-- Does `needle` occur anywhere in `hay`?  (Models Python `needle in hay`.) -/
def hasSubAux (needle : List Char) : List Char → Bool
  | [] => leadMatch needle []
  | c :: rest => leadMatch needle (c :: rest) || hasSubAux needle rest

/-- `hasSub hay needle` models Python `needle in hay` for strings. -/
def hasSub (hay needle : String) : Bool :=
  hasSubAux needle.data hay.data

/-- Does the character `c` occur in `s`?  (Models `c in s`.) -/
def hasChar (s : String) (c : Char) : Bool :=
  s.data.any (fun d => d == c)

/-- Fuel-driven splitter on a (non-empty) separator, models Python
`str.split(sep)`: non-overlapping leftmost occurrences, empty segments kept. -/
def splitOnAuxF (sep : List Char) : Nat → List Char → List Char → List (List Char)
  | 0, rest, acc => [acc.reverse ++ rest]
  | fuel + 1, l, acc =>
    match l with
    | [] => [acc.reverse]
    | c :: rest =>
      if leadMatch sep (c :: rest) then
        acc.reverse :: splitOnAuxF sep fuel (List.drop sep.length (c :: rest)) []
      else
        splitOnAuxF sep fuel rest (c :: acc)

/-- `splitOnStr s sep` models Python `s.split(sep)` for a non-empty `sep`. -/
def splitOnStr (s sep : String) : List String :=
  if sep.data.isEmpty then [s]
  else (splitOnAuxF sep.data (s.data.length + 1) s.data []).map (fun l => ⟨l⟩)

/-- Strip leading and trailing whitespace; models Python `str.strip()`. -/
def stripStr (s : String) : String :=
  ⟨((s.data.dropWhile Char.isWhitespace).reverse.dropWhile Char.isWhitespace).reverse⟩

/-- Lower-case every character; models Python `str.lower()`. -/
def lowerStr (s : String) : String :=
  ⟨s.data.map Char.toLower⟩

/-- `startsWithStr s p` models Python `s.startswith(p)`. -/
def startsWithStr (s p : String) : Bool :=
  leadMatch p.data s.data

/-- Split a line at the first colon, models `line.split(':', 1)` guarded
by `':' in line`: `none` when there is no colon. -/
def splitFirstColonAux : List Char → List Char → Option (String × String)
  | [], _ => none
  | c :: rest, acc =>
    if c == ':' then some (⟨acc.reverse⟩, ⟨rest⟩) else splitFirstColonAux rest (c :: acc)

/-- Split `s` into the part before and after its first colon. -/
def splitFirstColon (s : String) : Option (String × String) :=
  splitFirstColonAux s.data []

/-- Numeric value of a digit string; models Python `int(s)` for an all-digit
non-empty `s` (leading zeros allowed). -/
def digitsToNat (s : String) : Nat :=
  s.data.foldl (fun a c => a * 10 + (c.toNat - 48)) 0

/-- Left-pad with zeros to width `w`; models Python `str.zfill(w)` for
strings without a sign. -/
def zfill (s : String) (w : Nat) : String :=
  if w ≤ s.length then s else ⟨List.replicate (w - s.length) '0' ++ s.data⟩

/-! ## Utility functions of `main.py` -/

/-- `normalize_phone_number` (main.py:61-63): remove all non-digit
characters, i.e. `re.sub(r'\D', '', number)`. -/
def normalize_phone_number (number : String) : String :=
  ⟨number.data.filter (fun c => c.isDigit)⟩

/-- `get_last_digits` (main.py:65-68): the last `digits` characters of the
normalized number when it is long enough, otherwise the whole normalized
number. -/
def get_last_digits (number : String) (digits : Nat) : String :=
  let normalized := normalize_phone_number number
  if digits ≤ normalized.length then ⟨normalized.data.drop (normalized.length - digits)⟩
  else normalized

/-- One iteration of the loop body of `parse_number_ranges` (main.py:74-91):
expand a single token.  `none` models a Python exception escaping the loop
(`split` unpack failure on more than one colon, or `int('')`). -/
def parseToken (item : String) : Option (List String) :=
  if hasChar item ':' then
    match splitOnStr item ":" with
    | [startTok, stopTok] =>
      let startN := normalize_phone_number startTok
      let stopN := normalize_phone_number stopTok
      if startN.length = stopN.length then
        if startN.data.isEmpty then none
        else
          some ((List.range' (digitsToNat startN) (digitsToNat stopN + 1 - digitsToNat startN)).map
            (fun n => zfill (Nat.repr n) startN.length))
      else
        some [normalize_phone_number item]
    | _ => none
  else
    some [normalize_phone_number item]

/-- `parse_number_ranges` (main.py:70-93): expand every token, concatenating
the results in order; `none` models an exception aborting the request. -/
def parse_number_ranges : List String → Option (List String)
  | [] => some []
  | item :: rest =>
    match parseToken item, parse_number_ranges rest with
    | some xs, some ys => some (xs ++ ys)
    | _, _ => none

/-! ## Mock store -/

/-- One value of the `mock_store` dict (main.py:378-381). -/
structure MockEntry where
  timestamp : Nat
  original_number : String
deriving DecidableEq, Repr

/-- The `mock_store` dict, as an insertion-ordered association list. -/
abbrev Store := List (String × MockEntry)

/-- Association-list lookup (Python `key in dict` / `dict[key]`). -/
def lookupKey (k : String) : Store → Option MockEntry
  | [] => none
  | (k', e) :: rest => if k' = k then some e else lookupKey k rest

/-- Dict assignment `mock_store[k] = e`: replace in place, else append. -/
def storeInsert (k : String) (e : MockEntry) : Store → Store
  | [] => [(k, e)]
  | (k', e') :: rest => if k' = k then (k, e) :: rest else (k', e') :: storeInsert k e rest

/-- Dict deletion `del mock_store[k]` (no-op when absent, matching the
guarded `if number in mock_store` use in main.py:433-434). -/
def storeErase (k : String) : Store → Store
  | [] => []
  | (k', e') :: rest => if k' = k then rest else (k', e') :: storeErase k rest

/-- The expiry test of `cleanup_expired_mocks` (main.py:101):
`current_time - data['timestamp'] > timedelta(minutes=ttl)`. -/
def isExpired (ttl now ts : Nat) : Bool :=
  ttl < now - ts

/-- `cleanup_expired_mocks` (main.py:95-106): drop every expired entry. -/
def cleanup_expired_mocks (ttl now : Nat) (store : Store) : Store :=
  store.filter (fun kv => !isExpired ttl now kv.2.timestamp)

/-- The store update performed by the insertion loop of `mock_connect`
(main.py:376-382). -/
def insertNumbers (numbers : List String) (now : Nat) (store : Store) : Store :=
  numbers.foldl (fun st number => storeInsert (get_last_digits number 7) ⟨now, number⟩ st) store

/-- `mock_connect` (main.py:363-394): expand ranges, insert one entry per
expanded number keyed by its last 7 digits, report the added count.
`none` models the 500 response produced when range parsing raises.
Note: it does not call `cleanup_expired_mocks`. -/
def mock_connect (numbers : List String) (now : Nat) (store : Store) : Option (Store × Nat) :=
  match parse_number_ranges numbers with
  | none => none
  | some expanded => some (insertNumbers expanded now store, expanded.length)

/-- `clear_mocks` (main.py:397-415): report the size of the raw store and
empty it.  Note: it does not call `cleanup_expired_mocks`. -/
def clear_mocks (store : Store) : Nat × Store :=
  (store.length, [])

/-- `get_mock_status` (main.py:463-489): cleanup, then report the surviving
entries with creation and expiry times. -/
def mock_status (ttl now : Nat) (store : Store) : Store × List (String × String × Nat × Nat) :=
  let store1 := cleanup_expired_mocks ttl now store
  (store1, store1.map (fun kv => (kv.1, kv.2.original_number, kv.2.timestamp, kv.2.timestamp + ttl)))

/-! ## Channel records and the AMI response parser -/

/-- A value in a parsed channel dict: either a plain string or one of the
nested one-level dicts (`caller`, `connected`, `dialplan`) built by
`parse_ami_channels`. -/
inductive FieldVal where
  | str (v : String)
  | nest (pairs : List (String × String))
deriving DecidableEq, Repr

/-- A parsed channel: an insertion-ordered dict of field values. -/
abbrev Channel := List (String × FieldVal)

/-- Dict assignment inside a nested dict (`channel["dialplan"]["context"] = v`). -/
def pairsInsert (k v : String) : List (String × String) → List (String × String)
  | [] => [(k, v)]
  | (k', v') :: rest => if k' = k then (k, v) :: rest else (k', v') :: pairsInsert k v rest

/-- Dict assignment `channel[k] = v`: replace in place, else append. -/
def chanInsert (k : String) (v : FieldVal) : Channel → Channel
  | [] => [(k, v)]
  | (k', v') :: rest => if k' = k then (k, v) :: rest else (k', v') :: chanInsert k v rest

/-- Dict lookup `channel.get(k)`. -/
def chanLookup (k : String) : Channel → Option FieldVal
  | [] => none
  | (k', v') :: rest => if k' = k then some v' else chanLookup k rest

/-- The field-mapping branch of `parse_ami_channels` (main.py:187-206),
applied to one already-trimmed `key` / `value` pair. -/
def applyField (channel : Channel) (key value : String) : Channel :=
  if key = "Channel" then
    chanInsert "id" (.str value) (chanInsert "name" (.str value) channel)
  else if key = "ChannelState" then
    chanInsert "state" (.str value) channel
  else if key = "ChannelStateDesc" then
    chanInsert "state_desc" (.str value) channel
  else if key = "CallerIDNum" then
    chanInsert "caller" (.nest [("number", value)]) channel
  else if key = "ConnectedLineNum" then
    chanInsert "connected" (.nest [("number", value)]) channel
  else if key = "Exten" then
    chanInsert "dialplan" (.nest [("exten", value)]) channel
  else if key = "Context" then
    match chanLookup "dialplan" channel with
    | some (.nest ps) => chanInsert "dialplan" (.nest (pairsInsert "context" value ps)) channel
    | _ => chanInsert "dialplan" (.nest [("context", value)]) channel
  else
    chanInsert (lowerStr key) (.str value) channel

/-- The per-event body of `parse_ami_channels` (main.py:178-206): strip the
block, split into CRLF lines, and turn every line containing a colon into a
field of the channel dict. -/
def parseBlock (event : String) : Channel :=
  (splitOnStr (stripStr event) "\r\n").foldl
    (fun channel line =>
      match splitFirstColon line with
      | none => channel
      | some (k, v) => applyField channel (stripStr k) (stripStr v))
    []

/-- The tail of the loop body of `parse_ami_channels` (main.py:208-209):
`if channel: channels.append(channel)`. -/
def emitChannel (acc : List Channel) (ev : String) : List Channel :=
  let channel := parseBlock ev
  if channel.isEmpty then acc else acc ++ [channel]

/-- `parse_ami_channels` (main.py:170-211): split the raw text on the
block-start marker, drop the preamble before the first marker, parse each
block, and keep only the blocks whose dict came out non-empty. -/
def parse_ami_channels (ami_data : String) : List Channel :=
  ((splitOnStr ami_data "Event: CoreShowChannel").drop 1).foldl emitChannel []

/-! ## The channel matcher -/

/-- Python `repr` of a flat string-to-string dict, used for the nested
dicts inside a channel. -/
def pyReprPairs (ps : List (String × String)) : String :=
  "\x7b" ++ String.intercalate ", " (ps.map (fun kv => "'" ++ kv.1 ++ "': '" ++ kv.2 ++ "'")) ++ "\x7d"

/-- Python `repr` of a field value. -/
def pyReprVal : FieldVal → String
  | .str v => "'" ++ v ++ "'"
  | .nest ps => pyReprPairs ps

/-- `str(channel)` (main.py:222): the Python textual form of the channel
dict, in insertion order. -/
def channelStr (c : Channel) : String :=
  "\x7b" ++ String.intercalate ", " (c.map (fun kv => "'" ++ kv.1 ++ "': " ++ pyReprVal kv.2)) ++ "\x7d"

/-- Maximal runs of consecutive digits in a character list. -/
def digitRunsAux : List Char → List Char → List String
  | [], acc => if acc.isEmpty then [] else [⟨acc.reverse⟩]
  | c :: rest, acc =>
    if c.isDigit then digitRunsAux rest (c :: acc)
    else if acc.isEmpty then digitRunsAux rest []
    else ⟨acc.reverse⟩ :: digitRunsAux rest []

/-- `re.findall(r'\d{7,}', s)` (main.py:225): the maximal digit runs of
length at least 7, in order of occurrence. -/
def findallDigits7 (s : String) : List String :=
  (digitRunsAux s.data []).filter (fun r => 7 ≤ r.length)

/-- `match_channel` (main.py:213-244): serialize the whole channel dict,
extract every run of 7 or more digits, and succeed when any run's last 7
digits equal the target's last 7 digits.  The `caller_id` parameter is
accepted but never read by the source. -/
def match_channel (channel : Channel) (dialed_number : String) (caller_id : Option String) : Bool :=
  let dialed_last_digits := get_last_digits dialed_number 7
  (findallDigits7 (channelStr channel)).any
    (fun num => get_last_digits num 7 == dialed_last_digits)

/-! ## The AMI connection (`get_asterisk_channels`) -/

/-- One socket read: either a chunk of data (`""` for peer close) or an
exception raised by the read. -/
inductive ReadEv where
  | chunk (s : String)
  | err
deriving DecidableEq, Repr

/-- The environment of one AMI session: whether `asyncio.open_connection`
succeeds, and the sequence of results of successive `reader.read` calls
(past the end of the list, reads return `""`, i.e. peer closed). -/
structure AmiEnv where
  connectOk : Bool
  reads : List ReadEv
deriving DecidableEq, Repr

/-- The completion test of the fetch loop (main.py:151). -/
def hasEndMarker (acc : String) : Bool :=
  hasSub acc "--END COMMAND--" || hasSub acc "Event: CoreShowChannelsComplete"

/-- The fetch read loop (main.py:144-152): accumulate chunks until an empty
read or a completion marker; `none` models an exception escaping to the
handler. -/
def fetchLoop : List ReadEv → String → Option String
  | [], acc => some acc
  | .err :: _, _ => none
  | .chunk s :: rest, acc =>
    if s.data.isEmpty then some acc
    else
      let acc2 := acc ++ s
      if hasEndMarker acc2 then some acc2 else fetchLoop rest acc2

/-- The outcome of `get_asterisk_channels`, extended with whether the
transport was opened and whether it was closed before returning. -/
structure FetchResult where
  channels : List Channel
  opened : Bool
  closed : Bool
deriving DecidableEq, Repr

/-- `get_asterisk_channels` (main.py:108-168): connect, send the login and
read its response with a single `reader.read(1024)`, succeed only when
`"Success"` occurs in that one chunk, then accumulate the CoreShowChannels
response and parse it.  Every raised exception is caught by the trailing
handler, which returns `[]` without closing the writer; the login-failure
branch and the success path do close it. -/
def get_asterisk_channels (env : AmiEnv) : FetchResult :=
  if env.connectOk = false then ⟨[], false, false⟩
  else
    match env.reads with
    | [] => ⟨[], true, true⟩
    | .err :: _ => ⟨[], true, false⟩
    | .chunk s :: rest =>
      if hasSub s "Success" = false then ⟨[], true, true⟩
      else
        match fetchLoop rest "" with
        | none => ⟨[], true, false⟩
        | some data => ⟨parse_ami_channels data, true, true⟩

/-! ## The check-connection endpoint -/

/-- The `ConnectionResponse` model (main.py:47-51), with the ISO timestamp
replaced by the abstract clock value. -/
structure ConnectionResponse where
  connected : Bool
  channel_id : Option String
  message : String
  timestamp : Nat
deriving DecidableEq, Repr

/-- The observable outcome of one `check_connection` request: the response,
the mock store left behind, and whether the AMI connection was consulted. -/
structure CheckOutcome where
  response : ConnectionResponse
  store' : Store
  queriedSwitch : Bool
deriving DecidableEq, Repr

/-- `matching_channel.get('id')` as an optional string. -/
def chanIdOf (c : Channel) : Option String :=
  match chanLookup "id" c with
  | some (.str v) => some v
  | _ => none

/-- `check_connection` (main.py:291-360): clean up expired mocks, look the
normalized number up in the mock store (returning a synthesized
`mock-...` channel without touching AMI on a hit), otherwise fetch the AMI
channels and return the first one accepted by `match_channel`. -/
def check_connection (ttl : Nat) (env : AmiEnv) (store : Store) (dialed_number : String)
    (caller_id : Option String) (now : Nat) : CheckOutcome :=
  match lookupKey (get_last_digits (normalize_phone_number dialed_number) 7)
      (cleanup_expired_mocks ttl now store) with
  | some _ =>
    ⟨⟨true, some ("mock-" ++ get_last_digits (normalize_phone_number dialed_number) 7
        ++ "-" ++ Nat.repr now),
      "Mock connection active", now⟩,
     cleanup_expired_mocks ttl now store, false⟩
  | none =>
    match (get_asterisk_channels env).channels.find?
        (fun ch => match_channel ch (normalize_phone_number dialed_number) caller_id) with
    | some ch =>
      ⟨⟨true, chanIdOf ch, "Call exists on Asterisk server", now⟩,
       cleanup_expired_mocks ttl now store, true⟩
    | none =>
      ⟨⟨false, none, "Call not found on Asterisk server", now⟩,
       cleanup_expired_mocks ttl now store, true⟩

/-! ## The disconnect endpoint -/

/-- The HTTP-level outcome of `disconnect_call`. -/
inductive DisconnectResp where
  | ok (message : String)
  | httpError (code : Nat)
deriving DecidableEq, Repr

/-- The observable outcome of one `disconnect_call` request. -/
structure DisconnectOutcome where
  resp : DisconnectResp
  store' : Store
  usedConnection : Bool
deriving DecidableEq, Repr

/-- `disconnect_call` (main.py:418-460): for a `mock-` prefixed channel id,
extract the number between the first two dashes, delete it from the store
when present, and always answer success without opening a connection;
otherwise issue the ARI DELETE, succeeding on status 204 or 404. -/
def disconnect_call (channel_id : String) (ariStatus : Nat) (store : Store) : DisconnectOutcome :=
  if startsWithStr channel_id "mock-" then
    let store2 :=
      match splitOnStr channel_id "-" with
      | _ :: number :: _ => storeErase number store
      | _ => store
    ⟨.ok "Mock call disconnected", store2, false⟩
  else
    if ariStatus = 204 ∨ ariStatus = 404 then
      ⟨.ok "Call disconnected successfully", store, true⟩
    else
      ⟨.httpError 500, store, true⟩

/-! ## Claim-modelled login loop (for claim C5 only)

`claimedLoginRead` is written from the specification's words, not from the
source: a bounded-attempt accumulating read loop with early termination on
a blank-line terminator or an outcome token, succeeding exactly when the
positive token is in the accumulated text.  It exists to be compared with
the single-read login step of `get_asterisk_channels`. -/

/-- Modelled from the spec: the bounded login-read loop that §4.1 of the
spec describes (per-attempt reads, fixed attempt budget, early stop on a
blank-line terminator or an outcome token). -/
def claimedLoginGo : List String → Nat → String → Bool
  | _, 0, acc => hasSub acc "Success"
  | [], _ + 1, acc => hasSub acc "Success"
  | c :: rest, n + 1, acc =>
    let acc2 := acc ++ c
    if hasSub acc2 "\r\n\r\n" || hasSub acc2 "Success" || hasSub acc2 "Error" then
      hasSub acc2 "Success"
    else claimedLoginGo rest n acc2

/-- Modelled from the spec: run the claimed login-read loop on a chunk
stream with the given attempt budget. -/
def claimedLoginRead (chunks : List String) (maxAttempts : Nat) : Bool :=
  claimedLoginGo chunks maxAttempts ""

/-! ## Theorems -/

/-- C7: `normalize_phone_number` keeps exactly the digit characters of its
input, in order, and is idempotent. -/
theorem normalize_strips_nondigits_and_idempotent (s : String) :
    (normalize_phone_number s).data = s.data.filter (fun c => c.isDigit) ∧
    normalize_phone_number (normalize_phone_number s) = normalize_phone_number s := by
  refine ⟨rfl, congrArg String.mk ?_⟩
  show (s.data.filter (fun c => c.isDigit)).filter (fun c => c.isDigit)
      = s.data.filter (fun c => c.isDigit)
  rw [List.filter_filter]
  simp

/-- C1 (amended): the caller-id argument of `match_channel` is accepted but
never read, so supplying a caller-id filter never changes the matcher's
verdict: matching is exactly the base last-7-digit search over the
serialized record. -/
theorem match_channel_ignores_caller_id (c : Channel) (d : String) (cid : Option String) :
    match_channel c d cid = match_channel c d none := rfl

/-- A concrete channel whose caller number does not match the caller-id
filter but whose dialplan extension matches the dialed number. -/
def chanCallerMismatch : Channel :=
  [("name", .str "SIP/100-00000001"), ("id", .str "SIP/100-00000001"),
   ("caller", .nest [("number", "5550000")]), ("dialplan", .nest [("exten", "5551234")])]

/-- C1 counterexample: with caller-id `"9998888"` supplied, a channel whose
caller-number field is `"5550000"` (which does not match the filter) is
still accepted because another field contains a matching 7-digit run —
contradicting the claim that such a record is rejected. -/
theorem match_channel_caller_id_not_enforced :
    match_channel chanCallerMismatch "5551234" (some "9998888") = true ∧
    chanLookup "caller" chanCallerMismatch = some (.nest [("number", "5550000")]) ∧
    get_last_digits "5550000" 7 ≠ get_last_digits "9998888" 7 := by
  refine ⟨by decide, by decide, by decide⟩

/-- Membership in the zero-padded expansion of an inclusive range. -/
theorem mem_range_expansion (a b w : Nat) (x : String) :
    x ∈ (List.range' a (b + 1 - a)).map (fun n => zfill (Nat.repr n) w) ↔
      ∃ n, a ≤ n ∧ n ≤ b ∧ x = zfill (Nat.repr n) w := by
  simp only [List.mem_map, List.mem_range'_1]
  constructor
  · rintro ⟨n, ⟨h1, h2⟩, rfl⟩
    exact ⟨n, h1, by omega, rfl⟩
  · rintro ⟨n, h1, h2, rfl⟩
    exact ⟨n, ⟨h1, by omega⟩, rfl⟩

/-- C6: a `:`-token whose normalized endpoints have equal digit length
expands to exactly the integers of the inclusive range, each zero-padded to
the shared width; unequal-length endpoints yield the single literal
normalized token. -/
theorem parse_token_range_expansion (item startTok stopTok : String)
    (hc : hasChar item ':' = true)
    (hsplit : splitOnStr item ":" = [startTok, stopTok]) :
    ((normalize_phone_number startTok).length = (normalize_phone_number stopTok).length →
      (normalize_phone_number startTok).data.isEmpty = false →
      ∃ l, parseToken item = some l ∧
        l.length = digitsToNat (normalize_phone_number stopTok) + 1
                    - digitsToNat (normalize_phone_number startTok) ∧
        ∀ x, x ∈ l ↔ ∃ n, digitsToNat (normalize_phone_number startTok) ≤ n ∧
              n ≤ digitsToNat (normalize_phone_number stopTok) ∧
              x = zfill (Nat.repr n) (normalize_phone_number startTok).length) ∧
    ((normalize_phone_number startTok).length ≠ (normalize_phone_number stopTok).length →
      parseToken item = some [normalize_phone_number item]) := by
  constructor
  · intro hlen hne
    refine ⟨(List.range' (digitsToNat (normalize_phone_number startTok))
        (digitsToNat (normalize_phone_number stopTok) + 1
          - digitsToNat (normalize_phone_number startTok))).map
        (fun n => zfill (Nat.repr n) (normalize_phone_number startTok).length), ?_, ?_, ?_⟩
    · unfold parseToken
      rw [hc, hsplit]
      simp only [if_pos hlen, hne]
      rfl
    · rw [List.length_map, List.length_range']
    · intro x
      exact mem_range_expansion _ _ _ x
  · intro hlen
    unfold parseToken
    rw [hc, hsplit]
    simp only [if_neg hlen]
    rfl

/-- Witness for C6 at the spec's concrete examples: `"0100:0103"` expands
to the four padded values and `"55:5550"` degrades to the literal
normalized token. -/
theorem parse_token_range_expansion_witness :
    (∃ l, parseToken "0100:0103" = some l ∧ l.length = 4 ∧
      ∀ x, x ∈ l ↔ ∃ n, 100 ≤ n ∧ n ≤ 103 ∧ x = zfill (Nat.repr n) 4) ∧
    parseToken "55:5550" = some ["555550"] ∧
    parseToken "0100:0103" = some ["0100", "0101", "0102", "0103"] := by
  refine ⟨?_, ?_, by decide⟩
  · exact (parse_token_range_expansion "0100:0103" "0100" "0103"
      (by decide) (by decide)).1 (by decide) (by decide)
  · exact (parse_token_range_expansion "55:5550" "55" "5550"
      (by decide) (by decide)).2 (by decide)

/-- The emission loop of `parse_ami_channels`, rewritten as map-and-filter. -/
theorem parse_emit_foldl (l : List String) (acc : List Channel) :
    l.foldl emitChannel acc = acc ++ (l.map parseBlock).filter (fun c => !c.isEmpty) := by
  induction l generalizing acc with
  | nil => simp
  | cons x xs ih =>
    rw [List.foldl_cons]
    cases h : (parseBlock x).isEmpty with
    | false =>
      have hstep : emitChannel acc x = acc ++ [parseBlock x] := by simp [emitChannel, h]
      rw [hstep, ih]
      simp [h, List.append_assoc]
    | true =>
      have hstep : emitChannel acc x = acc := by simp [emitChannel, h]
      rw [hstep, ih]
      simp [h]

/-- C2 (amended): the parser discards the segment before the first
block-start marker and emits a parsed block exactly when its field map is
non-empty, i.e. when at least one of its lines contained a colon — whether
or not the identifying field is among the parsed fields. -/
theorem parse_ami_channels_structure (ami_data : String) :
    parse_ami_channels ami_data =
      (((splitOnStr ami_data "Event: CoreShowChannel").drop 1).map parseBlock).filter
        (fun c => !c.isEmpty) := by
  unfold parse_ami_channels
  rw [parse_emit_foldl]
  simp

/-- A raw AMI response whose trailing `CoreShowChannelsComplete` event
parses to a non-empty block that has no identifying field. -/
def amiDataNoId : String :=
  "Response: Success\r\n\r\nEvent: CoreShowChannel\r\nChannel: SIP/100-a\r\n\r\n" ++
  "Event: CoreShowChannelsComplete\r\nEventList: Complete\r\n\r\n"

/-- C2 counterexample: the parser emits a record that lacks the identifying
field (`id`/`name`): the block split off the `CoreShowChannelsComplete`
event parses to `{eventlist: Complete}` and is kept, contradicting the
claim that every block lacking the identifying field is dropped. -/
theorem parse_ami_emits_block_without_id :
    parse_ami_channels amiDataNoId =
      [[("name", FieldVal.str "SIP/100-a"), ("id", FieldVal.str "SIP/100-a")],
       [("eventlist", FieldVal.str "Complete")]] ∧
    chanLookup "id" [("eventlist", FieldVal.str "Complete")] = none := by
  refine ⟨by decide, by decide⟩

/-- C4 environment: the AMI connection opens, login succeeds, then the
read inside the channel-fetch loop raises (e.g. a connection reset). -/
def envMidFetchRaise : AmiEnv :=
  ⟨true, [.chunk "Asterisk Call Manager/1.1\r\nResponse: Success\r\n\r\n", .err]⟩

/-- C4: when an exception is raised mid-fetch after a successful login, the
catch-all handler of `get_asterisk_channels` returns without closing the
writer — the transport was opened but is not closed on this exit path. -/
theorem fetch_exception_leaves_session_open :
    get_asterisk_channels envMidFetchRaise =
      { channels := [], opened := true, closed := false } := by decide

/-- C5 counterexample: the login response data arrives in two chunks (banner
first, then `Response: Success`).  The claimed bounded multi-attempt loop
(with budget 3) accepts the login, but the code's single `read` sees only
the banner and fails the login, returning no channels. -/
theorem login_single_read_misses_late_token :
    get_asterisk_channels ⟨true, [.chunk "Asterisk Call Manager/1.1\r\n",
        .chunk "Response: Success\r\n\r\n"]⟩ =
      { channels := [], opened := true, closed := true } ∧
    claimedLoginRead ["Asterisk Call Manager/1.1\r\n", "Response: Success\r\n\r\n"] 3 = true := by
  refine ⟨by decide, by decide⟩

/-- C5 (amended): the login step is a single read with no retry loop: if the
first chunk read after sending the credentials does not contain the
positive-outcome token, the fetch gives up (returning no channels, with the
session closed) no matter what data would have arrived in later reads. -/
theorem login_is_single_unbounded_read (s : String) (rest : List ReadEv)
    (h : hasSub s "Success" = false) :
    get_asterisk_channels ⟨true, .chunk s :: rest⟩ =
      { channels := [], opened := true, closed := true } := by
  unfold get_asterisk_channels
  simp [h]

/-- Witness for the amended C5 at a concrete split stream. -/
theorem login_is_single_unbounded_read_witness :
    get_asterisk_channels ⟨true, [.chunk "Asterisk Call Manager/1.1\r\n",
        .chunk "Response: Success\r\n\r\n"]⟩ =
      { channels := [], opened := true, closed := true } :=
  login_is_single_unbounded_read "Asterisk Call Manager/1.1\r\n"
    [.chunk "Response: Success\r\n\r\n"] (by decide)

/-- C3 (amended): when opening the transport fails, `get_asterisk_channels`
swallows the exception and returns an empty channel list, so a mock-store
miss ends in the ordinary connected=false "Call not found" response — not
in a distinct service-unavailable outcome. -/
theorem connect_failure_reports_not_found (ttl : Nat) (reads : List ReadEv) (store : Store)
    (d : String) (cid : Option String) (now : Nat)
    (hmiss : lookupKey (get_last_digits (normalize_phone_number d) 7)
      (cleanup_expired_mocks ttl now store) = none) :
    check_connection ttl ⟨false, reads⟩ store d cid now =
      ⟨⟨false, none, "Call not found on Asterisk server", now⟩,
       cleanup_expired_mocks ttl now store, true⟩ := by
  unfold check_connection
  rw [hmiss]
  simp [get_asterisk_channels]

/-- Witness for the amended C3: a connect failure on an empty mock store
produces exactly the "Call not found" response. -/
theorem connect_failure_reports_not_found_witness :
    check_connection 5 ⟨false, []⟩ [] "5551234" none 0 =
      ⟨⟨false, none, "Call not found on Asterisk server", 0⟩, [], true⟩ :=
  connect_failure_reports_not_found 5 [] [] "5551234" none 0 (by decide)

/-- C3 environment: the transport cannot be opened. -/
def envConnectFail : AmiEnv := ⟨false, []⟩

/-- C3 environment: login succeeds and the switch reports zero channels. -/
def envNoChannels : AmiEnv :=
  ⟨true, [.chunk "Asterisk Call Manager/1.1\r\nResponse: Success\r\n\r\n",
          .chunk "Event: CoreShowChannelsComplete\r\n\r\n"]⟩

/-- C3 counterexample: the check's outcome after a transport-open failure is
identical to the outcome when the switch was reached and no channel matched
— both are the connected=false "Call not found" response, so no distinct
service-unavailable outcome exists. -/
theorem connect_failure_same_as_not_found :
    check_connection 5 envConnectFail [] "5551234" none 0 =
      check_connection 5 envNoChannels [] "5551234" none 0 ∧
    (check_connection 5 envConnectFail [] "5551234" none 0).response =
      ⟨false, none, "Call not found on Asterisk server", 0⟩ := by
  refine ⟨by decide, by decide⟩

/-- An unexpired entry just inserted under `k` is found again after cleanup. -/
theorem lookup_cleanup_insert_live (ttl now : Nat) (k : String) (e : MockEntry) (store : Store)
    (h : isExpired ttl now e.timestamp = false) :
    lookupKey k (cleanup_expired_mocks ttl now (storeInsert k e store)) = some e := by
  induction store with
  | nil => simp [storeInsert, cleanup_expired_mocks, lookupKey, h]
  | cons kv rest ih =>
    obtain ⟨k', e'⟩ := kv
    by_cases hk : k' = k
    · subst hk
      simp [storeInsert, cleanup_expired_mocks, lookupKey, h]
    · simp only [storeInsert, if_neg hk, cleanup_expired_mocks, List.filter_cons]
      cases hkeep : !isExpired ttl now e'.timestamp with
      | false => simpa [cleanup_expired_mocks] using ih
      | true =>
        simp only [lookupKey, if_neg hk]
        simpa [cleanup_expired_mocks] using ih

/-- An expired entry inserted under a key absent from the rest of the store
is gone after cleanup. -/
theorem lookup_cleanup_insert_expired (ttl now : Nat) (k : String) (e : MockEntry)
    (store : Store) (h0 : lookupKey k store = none)
    (hexp : isExpired ttl now e.timestamp = true) :
    lookupKey k (cleanup_expired_mocks ttl now (storeInsert k e store)) = none := by
  revert h0
  induction store with
  | nil =>
    intro h0
    simp [storeInsert, cleanup_expired_mocks, lookupKey, hexp]
  | cons kv rest ih =>
    intro h0
    obtain ⟨k', e'⟩ := kv
    by_cases hk : k' = k
    · rw [lookupKey, if_pos hk] at h0
      exact absurd h0 (by simp)
    · have h0' : lookupKey k rest = none := by
        rw [lookupKey, if_neg hk] at h0
        exact h0
      simp only [storeInsert, if_neg hk, cleanup_expired_mocks, List.filter_cons]
      cases hkeep : !isExpired ttl now e'.timestamp with
      | false => simpa [cleanup_expired_mocks] using ih h0'
      | true =>
        simp only [lookupKey, if_neg hk]
        simpa [cleanup_expired_mocks] using ih h0'

/-- Deleting an absent key leaves the store unchanged. -/
theorem storeErase_absent (k : String) (store : Store)
    (h : lookupKey k store = none) : storeErase k store = store := by
  revert h
  induction store with
  | nil => intro _; rfl
  | cons kv rest ih =>
    intro h
    obtain ⟨k', e'⟩ := kv
    by_cases hk : k' = k
    · rw [lookupKey, if_pos hk] at h
      exact absurd h (by simp)
    · have h' : lookupKey k rest = none := by
        rw [lookupKey, if_neg hk] at h
        exact h
      rw [storeErase, if_neg hk, ih h']

/-- C8 (amended): expiry is invoked at the start of `check_connection` and
`get_mock_status`, whose resulting stores are exactly the cleaned-up store;
but `mock_connect` inserts into the raw store without expiring anything,
and `clear_mocks` counts the raw store (expired entries included) before
emptying it. -/
theorem expiry_only_in_check_and_status :
    (∀ ttl env store d cid now, (check_connection ttl env store d cid now).store' =
        cleanup_expired_mocks ttl now store) ∧
    (∀ numbers expanded now store, parse_number_ranges numbers = some expanded →
        mock_connect numbers now store = some (insertNumbers expanded now store, expanded.length)) ∧
    (∀ store : Store, clear_mocks store = (store.length, [])) ∧
    (∀ ttl now store, (mock_status ttl now store).1 = cleanup_expired_mocks ttl now store) := by
  refine ⟨?_, ?_, fun _ => rfl, fun _ _ _ => rfl⟩
  · intro ttl env store d cid now
    unfold check_connection
    cases h : lookupKey (get_last_digits (normalize_phone_number d) 7)
        (cleanup_expired_mocks ttl now store) with
    | some e => rfl
    | none =>
      cases hf : (get_asterisk_channels env).channels.find?
          (fun ch => match_channel ch (normalize_phone_number d) cid) with
      | some ch => rfl
      | none => rfl
  · intro numbers expanded now store h
    unfold mock_connect
    rw [h]

/-- Witness for the amended C8 at concrete stores. -/
theorem expiry_only_in_check_and_status_witness :
    (check_connection 5 ⟨false, []⟩ [("1111111", ⟨0, "1111111"⟩)] "2222222" none 100).store' = [] ∧
    mock_connect ["3333333"] 7 [] = some ([("3333333", ⟨7, "3333333"⟩)], 1) ∧
    clear_mocks [("1111111", ⟨0, "1111111"⟩)] = (1, []) := by
  obtain ⟨h1, h2, h3, _⟩ := expiry_only_in_check_and_status
  refine ⟨?_, ?_, h3 _⟩
  · exact (h1 5 ⟨false, []⟩ [("1111111", ⟨0, "1111111"⟩)] "2222222" none 100).trans (by decide)
  · exact (h2 ["3333333"] ["3333333"] 7 [] (by decide)).trans (by decide)

/-- C8 counterexample: `mock_connect` does not run expiry: with TTL 5, an
entry of age 100 is expired (cleanup would delete it), yet after a
`mock_connect` at time 100 it is still present in the store. -/
theorem mock_connect_keeps_expired_entries :
    mock_connect ["2222222"] 100 [("1111111", ⟨0, "1111111"⟩)] =
      some ([("1111111", ⟨0, "1111111"⟩), ("2222222", ⟨100, "2222222"⟩)], 1) ∧
    cleanup_expired_mocks 5 100 [("1111111", ⟨0, "1111111"⟩)] = [] ∧
    isExpired 5 100 0 = true := by
  refine ⟨by decide, by decide, by decide⟩

/-- C9: putting a plain number into the mock store and checking the same
number within the TTL hits the registry: connected=true with the
synthesized `mock-`-prefixed channel id and no AMI query; checking after
the TTL has elapsed misses the registry (the AMI connection is consulted). -/
theorem mock_put_then_check (ttl : Nat) (env : AmiEnv) (store : Store) (n : String)
    (cid : Option String) (t1 t2 : Nat)
    (hplain : hasChar n ':' = false) :
    mock_connect [n] t1 store =
      some (storeInsert (get_last_digits (normalize_phone_number n) 7)
              ⟨t1, normalize_phone_number n⟩ store, 1) ∧
    (t2 - t1 ≤ ttl →
      (check_connection ttl env
          (storeInsert (get_last_digits (normalize_phone_number n) 7)
            ⟨t1, normalize_phone_number n⟩ store) n cid t2).queriedSwitch = false ∧
      (check_connection ttl env
          (storeInsert (get_last_digits (normalize_phone_number n) 7)
            ⟨t1, normalize_phone_number n⟩ store) n cid t2).response.connected = true ∧
      (check_connection ttl env
          (storeInsert (get_last_digits (normalize_phone_number n) 7)
            ⟨t1, normalize_phone_number n⟩ store) n cid t2).response.channel_id =
        some ("mock-" ++ get_last_digits (normalize_phone_number n) 7 ++ "-" ++ Nat.repr t2)) ∧
    (ttl < t2 - t1 →
      lookupKey (get_last_digits (normalize_phone_number n) 7) store = none →
      (check_connection ttl env
          (storeInsert (get_last_digits (normalize_phone_number n) 7)
            ⟨t1, normalize_phone_number n⟩ store) n cid t2).queriedSwitch = true) := by
  have hpt : parseToken n = some [normalize_phone_number n] := by
    simp [parseToken, hplain]
  have hpr : parse_number_ranges [n] = some [normalize_phone_number n] := by
    simp [parse_number_ranges, hpt]
  refine ⟨?_, ?_, ?_⟩
  · unfold mock_connect
    rw [hpr]
    rfl
  · intro h
    have hlive : isExpired ttl t2 t1 = false := by
      simp only [isExpired, decide_eq_false_iff_not]
      omega
    have hlook := lookup_cleanup_insert_live ttl t2
      (get_last_digits (normalize_phone_number n) 7)
      ⟨t1, normalize_phone_number n⟩ store hlive
    refine ⟨?_, ?_, ?_⟩ <;>
      · unfold check_connection
        rw [hlook]
  · intro h h0
    have hexp : isExpired ttl t2 t1 = true := by
      simp only [isExpired, decide_eq_true_eq]
      omega
    have hlook := lookup_cleanup_insert_expired ttl t2
      (get_last_digits (normalize_phone_number n) 7)
      ⟨t1, normalize_phone_number n⟩ store h0 hexp
    unfold check_connection
    rw [hlook]
    cases hf : (get_asterisk_channels env).channels.find?
        (fun ch => match_channel ch (normalize_phone_number n) cid) with
    | some ch => rfl
    | none => rfl

/-- Witness for C9: put `"5551234"` at time 0 with TTL 5; a check at time 3
hits the mock store with channel id `"mock-5551234-3"`, a check at time 100
misses it and falls through to the AMI query. -/
theorem mock_put_then_check_witness :
    mock_connect ["5551234"] 0 [] = some ([("5551234", ⟨0, "5551234"⟩)], 1) ∧
    ((check_connection 5 ⟨false, []⟩ [("5551234", ⟨0, "5551234"⟩)] "5551234" none 3).queriedSwitch
        = false ∧
      (check_connection 5 ⟨false, []⟩ [("5551234", ⟨0, "5551234"⟩)] "5551234" none 3).response.connected
        = true ∧
      (check_connection 5 ⟨false, []⟩ [("5551234", ⟨0, "5551234"⟩)] "5551234" none 3).response.channel_id
        = some "mock-5551234-3") ∧
    (check_connection 5 ⟨false, []⟩ [("5551234", ⟨0, "5551234"⟩)] "5551234" none 100).queriedSwitch
      = true := by
  have h1 := mock_put_then_check 5 ⟨false, []⟩ [] "5551234" none 0 3 (by decide)
  have h2 := mock_put_then_check 5 ⟨false, []⟩ [] "5551234" none 0 100 (by decide)
  exact ⟨h1.1.trans (by decide), h1.2.1 (by decide), h2.2.2 (by decide) (by decide)⟩

/-- C10: for every `mock-`-prefixed channel identifier, `disconnect_call`
answers the success message without opening any connection; the extracted
number is deleted from the store when present, and an absent number leaves
the store unchanged. -/
theorem mock_disconnect_always_succeeds (store : Store) (channel_id : String) (ariStatus : Nat)
    (h : startsWithStr channel_id "mock-" = true) :
    (disconnect_call channel_id ariStatus store).usedConnection = false ∧
    (disconnect_call channel_id ariStatus store).resp = .ok "Mock call disconnected" ∧
    ∀ number rest, splitOnStr channel_id "-" = "mock" :: number :: rest →
      (disconnect_call channel_id ariStatus store).store' = storeErase number store ∧
      (lookupKey number store = none →
        (disconnect_call channel_id ariStatus store).store' = store) := by
  have hd : disconnect_call channel_id ariStatus store =
      ⟨.ok "Mock call disconnected",
       match splitOnStr channel_id "-" with
       | _ :: number :: _ => storeErase number store
       | _ => store,
       false⟩ := by
    unfold disconnect_call
    rw [if_pos h]
  refine ⟨by rw [hd], by rw [hd], ?_⟩
  intro number rest hsplit
  constructor
  · rw [hd, hsplit]
  · intro h0
    rw [hd, hsplit]
    exact storeErase_absent number store h0

/-- Witness for C10: disconnecting `"mock-5551234-99"` removes the entry
and succeeds; disconnecting `"mock-9999999-1"` (no such entry) also
succeeds and leaves the store unchanged. -/
theorem mock_disconnect_always_succeeds_witness :
    (disconnect_call "mock-5551234-99" 500 [("5551234", ⟨0, "5551234"⟩)]).resp =
      .ok "Mock call disconnected" ∧
    (disconnect_call "mock-5551234-99" 500 [("5551234", ⟨0, "5551234"⟩)]).store' = [] ∧
    (disconnect_call "mock-5551234-99" 500 [("5551234", ⟨0, "5551234"⟩)]).usedConnection = false ∧
    (disconnect_call "mock-9999999-1" 500 [("5551234", ⟨0, "5551234"⟩)]).store' =
      [("5551234", ⟨0, "5551234"⟩)] := by
  have h1 := mock_disconnect_always_succeeds [("5551234", ⟨0, "5551234"⟩)]
    "mock-5551234-99" 500 (by decide)
  have h2 := mock_disconnect_always_succeeds [("5551234", ⟨0, "5551234"⟩)]
    "mock-9999999-1" 500 (by decide)
  refine ⟨h1.2.1, ?_, h1.1, ?_⟩
  · exact ((h1.2.2 "5551234" ["99"] (by decide)).1).trans (by decide)
  · exact (h2.2.2 "9999999" ["1"] (by decide)).2 (by decide)

end MDialer
